import Mathlib

/-!
Verification of the scheduled SQL-stats compaction subsystem and of the
`ALTER TENANT ... SET CLUSTER SETTING` formatter.

The compaction subsystem (schedule lifecycle, anomaly checker, compaction
executor) ships only its test surface in this tree, so its operations are
modelled from the specification; the formatter is embedded directly from
`pkg/sql/sem/tree/alter_tenant.go`.
-/

/-- Status of a scheduled task, as tracked by the external job framework:
Pending, Paused, Succeeded or Failed. -/
inductive ScheduleStatus where
  | pending
  | paused
  | succeeded
  | failed
deriving DecidableEq, Repr

/-- Modelled from the spec: the persisted `ScheduledCompactionTask` row owned
by the external job framework (the production lifecycle code is not in this
tree). `frequency` is the interval in seconds between consecutive runs implied
by `scheduleExpr`, as computed by the external cron library. -/
structure ScheduledTask where
  id : Nat
  name : String
  scheduleExpr : String
  frequency : Nat
  status : ScheduleStatus
deriving DecidableEq, Repr

/-- Modelled from the spec: the error taxonomy of the compaction core, as Go
error values. `wrapped` is one level of Go error wrapping around a cause. -/
inductive GoError where
  | schedulePaused
  | scheduleIntervalTooLong
  | scheduleUndroppable
  | wrapped (msg : String) (cause : GoError)
deriving DecidableEq, Repr

/-- Go `errors.Unwrap`: strips exactly one level of wrapping, or returns
none for an unwrapped error. -/
def errorsUnwrap : GoError → Option GoError
  | GoError.wrapped _ cause => some cause
  | _ => none

/-- Go `errors.Is`: reports whether `target` appears anywhere in the unwrap
chain of `e`, starting at `e` itself. -/
def errorsIs : GoError → GoError → Bool
  | GoError.wrapped msg cause, target =>
      decide (GoError.wrapped msg cause = target) || errorsIs cause target
  | e, target => decide (e = target)

/-- The protected schedule name constant. -/
def compactionScheduleName : String := "sql-stats-compaction"

/-- The default recurrence of the compaction schedule (hourly). -/
def defaultRecurrence : String := "@hourly"

/-- Seconds between consecutive runs of an `@hourly` schedule. -/
def hourlyFrequency : Nat := 60 * 60

/-- Seconds between consecutive runs of an `@weekly` schedule. -/
def weeklyFrequency : Nat := 7 * 24 * 60 * 60

/-- Modelled from the spec: the fixed maximum run interval accepted by the
anomaly checker, on the order of one day. -/
def maxScheduleInterval : Nat := 24 * 60 * 60

/-- The persisted store of schedule rows. -/
abbrev ScheduleStore := List ScheduledTask

/-- Predicate selecting rows bearing the protected schedule name. -/
def isCompactionSchedule (t : ScheduledTask) : Bool :=
  t.name == compactionScheduleName

/-- Number of persisted rows named `sql-stats-compaction`. -/
def scheduleCount (s : ScheduleStore) : Nat :=
  s.countP isCompactionSchedule

/-- Modelled from the spec: `EnsureScheduleExists` (production code not in
this tree). If a row with the protected name exists the call is a no-op;
otherwise it inserts one with the default hourly recurrence and status
Pending. The existence test and insert are one atomic step, standing for the
storage-layer uniqueness constraint under which a conflicting concurrent
insert is treated as success. Neither path returns an error. -/
def EnsureScheduleExists (s : ScheduleStore) (newID : Nat) :
    ScheduleStore × Option GoError :=
  if s.any isCompactionSchedule then (s, none)
  else ({ id := newID, name := compactionScheduleName,
          scheduleExpr := defaultRecurrence, frequency := hourlyFrequency,
          status := ScheduleStatus.pending } :: s, none)

/-- Runs `EnsureScheduleExists` once per listed caller, in sequence; any
concurrent execution is some such sequence because each call is one atomic
step of the store. Returns the final store and every call's error value. -/
def ensureMany : ScheduleStore → List Nat → ScheduleStore × List (Option GoError)
  | s, [] => (s, [])
  | s, i :: is =>
      let first := EnsureScheduleExists s i
      let rest := ensureMany first.1 is
      (rest.1, first.2 :: rest.2)

/-- Looks up a schedule row by task id. -/
def findTask (s : ScheduleStore) (taskID : Nat) : Option ScheduledTask :=
  s.find? (fun t => t.id == taskID)

/-- Modelled from the spec: `InterceptDeletion` (production code not in this
tree). Returns `ScheduleUndroppable` for any task whose name matches the
protected constant, regardless of caller; no side effects. -/
def InterceptDeletion (s : ScheduleStore) (taskID : Nat) : Option GoError :=
  match findTask s taskID with
  | some t =>
      if isCompactionSchedule t then some GoError.scheduleUndroppable else none
  | none => none

/-- Modelled from the spec: the job framework's deletion path with the
interception guard wired in. A `ScheduleUndroppable` failure aborts the
deletion with the store unchanged; otherwise the row is removed. -/
def dropSchedule (s : ScheduleStore) (taskID : Nat) :
    ScheduleStore × Option GoError :=
  match InterceptDeletion s taskID with
  | some e => (s, some e)
  | none => (s.filter (fun t => !(t.id == taskID)), none)

/-- Modelled from the spec: `CheckScheduleAnomaly` (production code not in
this tree). A paused schedule yields `SchedulePaused` immediately; otherwise
a run interval exceeding the maximum yields `ScheduleIntervalTooLong` wrapped
once with the offending expression; otherwise no anomaly. -/
def CheckScheduleAnomaly (t : ScheduledTask) : Option GoError :=
  if t.status = ScheduleStatus.paused then some GoError.schedulePaused
  else if maxScheduleInterval < t.frequency then
    some (GoError.wrapped t.scheduleExpr GoError.scheduleIntervalTooLong)
  else none

/-- Modelled from the spec: one persisted statistics row, keyed by
fingerprint and aggregation time bucket. -/
structure StatsRow where
  fingerprintID : Nat
  aggregatedTs : Nat
deriving DecidableEq, Repr

/-- The deletion order on statistics rows: by aggregation time bucket
ascending, tie-broken by fingerprint so the order is total. -/
def rowLE (a b : StatsRow) : Prop :=
  a.aggregatedTs < b.aggregatedTs ∨
    (a.aggregatedTs = b.aggregatedTs ∧ a.fingerprintID ≤ b.fingerprintID)

instance : DecidableRel rowLE := fun a b => by unfold rowLE; infer_instance

instance : IsTotal StatsRow rowLE := ⟨by intro a b; unfold rowLE; omega⟩

instance : IsTrans StatsRow rowLE := ⟨by intro a b c; unfold rowLE; omega⟩

/-- A statistics table arranged in deletion order (oldest bucket first). -/
def sortRows (tbl : List StatsRow) : List StatsRow :=
  List.insertionSort rowLE tbl

/-- Modelled from the spec: per-table compaction (production code not in this
tree). If the row count exceeds the ceiling, the oldest rows in deletion
order are removed until the count equals the ceiling; otherwise no-op. -/
def compactTable (ceiling : Nat) (tbl : List StatsRow) : List StatsRow :=
  if tbl.length ≤ ceiling then tbl
  else (sortRows tbl).drop (tbl.length - ceiling)

/-- The rows a compaction run removes: the oldest `R - C` in deletion order,
none when the table is already at or below the ceiling. -/
def deletedRows (ceiling : Nat) (tbl : List StatsRow) : List StatsRow :=
  if tbl.length ≤ ceiling then []
  else (sortRows tbl).take (tbl.length - ceiling)

/-- Modelled from the spec: the state `CompactionExecutor.Run` acts on — the
two persisted statistics tables and the retention ceiling read from the
cluster setting `sql.stats.persisted_rows.max` on every run. -/
structure StatsState where
  stmtStats : List StatsRow
  txnStats : List StatsRow
  persistedRowsMax : Nat
deriving DecidableEq, Repr

/-- Modelled from the spec: `CompactionExecutor.Run` (production code not in
this tree). Reads the current ceiling, compacts each table independently and
reports success when no storage error occurred (storage failures are the
external layer's, outside this model). -/
def CompactionExecutor.Run (s : StatsState) : StatsState × Option GoError :=
  ({ s with stmtStats := compactTable s.persistedRowsMax s.stmtStats,
            txnStats := compactTable s.persistedRowsMax s.txnStats }, none)

/-- Modelled from the spec: cluster state pairing the persisted schedule rows
with the `sql.stats.cleanup.recurrence` cluster setting, to distinguish the
persisted recurrence from the configuration key. -/
structure ClusterState where
  schedules : ScheduleStore
  recurrenceSetting : String
deriving DecidableEq, Repr

/-- Loads a fresh snapshot of the compaction schedule from persisted state. -/
def loadCompactionSchedule (s : ClusterState) : Option ScheduledTask :=
  s.schedules.find? isCompactionSchedule

/-- Modelled from the spec: a direct administrator edit of the persisted
schedule row's recurrence (and hence its implied run interval), bypassing the
cluster setting, which is left untouched. -/
def setScheduleExprDirect (s : ClusterState) (expr : String) (freq : Nat) :
    ClusterState :=
  { s with schedules := s.schedules.map fun t =>
      if isCompactionSchedule t then
        { t with scheduleExpr := expr, frequency := freq }
      else t }

/-- A SQL expression node, reduced to the text its `FormatNode` emits
(expression formatting lives outside `alter_tenant.go`). -/
structure tree.Expr where
  fmtStr : String
deriving DecidableEq, Repr

/-- A `SET CLUSTER SETTING` node, reduced to the text its `FormatNode`
emits (its own formatter lives outside `alter_tenant.go`). -/
structure tree.SetClusterSetting where
  fmtStr : String
deriving DecidableEq, Repr

/-- The formatting context: an output buffer being appended to. -/
structure tree.FmtCtx where
  buf : String
deriving DecidableEq, Repr

/-- `FmtCtx.WriteString`: appends a string to the buffer. -/
def tree.FmtCtx.WriteString (ctx : tree.FmtCtx) (s : String) : tree.FmtCtx :=
  ⟨ctx.buf ++ s⟩

/-- `FmtCtx.WriteByte`: appends a single character to the buffer. -/
def tree.FmtCtx.WriteByte (ctx : tree.FmtCtx) (c : Char) : tree.FmtCtx :=
  ⟨ctx.buf ++ String.singleton c⟩

/-- `ctx.FormatNode` on an expression: appends its formatted text. -/
def tree.FmtCtx.FormatExpr (ctx : tree.FmtCtx) (e : tree.Expr) : tree.FmtCtx :=
  ctx.WriteString e.fmtStr

/-- `ctx.FormatNode` on an embedded `SetClusterSetting`: appends its
formatted text. -/
def tree.FmtCtx.FormatSetClusterSetting (ctx : tree.FmtCtx)
    (n : tree.SetClusterSetting) : tree.FmtCtx :=
  ctx.WriteString n.fmtStr

/-- `AlterTenantSetClusterSetting` from `pkg/sql/sem/tree/alter_tenant.go`:
an `ALTER TENANT SET CLUSTER SETTING` statement node. -/
structure tree.AlterTenantSetClusterSetting where
  setClusterSetting : tree.SetClusterSetting
  tenantID : tree.Expr
  tenantAll : Bool
deriving DecidableEq, Repr

/-- `AlterTenantSetClusterSetting.Format`, embedded statement by statement
from `pkg/sql/sem/tree/alter_tenant.go`. -/
def tree.AlterTenantSetClusterSetting.Format
    (n : tree.AlterTenantSetClusterSetting) (ctx : tree.FmtCtx) : tree.FmtCtx :=
  let c1 := ctx.WriteString "ALTER "
  let c2 :=
    if n.tenantAll then c1.WriteString "ALL TENANTS"
    else (c1.WriteString "TENANT ").FormatExpr n.tenantID
  let c3 := c2.WriteByte ' '
  c3.FormatSetClusterSetting n.setClusterSetting

/-- C10: `AlterTenantSetClusterSetting.Format` writes `ALTER ALL TENANTS`,
a space and the formatted `SetClusterSetting` when `TenantAll` is set, and
otherwise `ALTER TENANT `, the formatted tenant expression, a space and the
formatted `SetClusterSetting`; the output is a function of the node and the
context, hence deterministic. -/
theorem alterTenantSetClusterSetting_format
    (n : tree.AlterTenantSetClusterSetting) (ctx : tree.FmtCtx) :
    (tree.AlterTenantSetClusterSetting.Format n ctx).buf =
      ctx.buf ++
        (if n.tenantAll then
          "ALTER ALL TENANTS " ++ n.setClusterSetting.fmtStr
        else
          "ALTER TENANT " ++ n.tenantID.fmtStr ++ " " ++
            n.setClusterSetting.fmtStr) := by
  have hsp : String.singleton ' ' = " " := by decide
  cases h : n.tenantAll
  · simp only [tree.AlterTenantSetClusterSetting.Format, tree.FmtCtx.WriteString,
      tree.FmtCtx.WriteByte, tree.FmtCtx.FormatExpr,
      tree.FmtCtx.FormatSetClusterSetting, h, Bool.false_eq_true, if_false, hsp,
      String.append_assoc]
    congr 1
  · simp only [tree.AlterTenantSetClusterSetting.Format, tree.FmtCtx.WriteString,
      tree.FmtCtx.WriteByte, tree.FmtCtx.FormatExpr,
      tree.FmtCtx.FormatSetClusterSetting, h, if_true, hsp, String.append_assoc]
    congr 1

/-- C4: for every schedule snapshot whose status is Paused,
`CheckScheduleAnomaly` returns the `SchedulePaused` anomaly, whatever the
recurrence interval is: Paused takes precedence over the interval check. -/
theorem schedulePaused_precedence (t : ScheduledTask)
    (h : t.status = ScheduleStatus.paused) :
    CheckScheduleAnomaly t = some GoError.schedulePaused := by
  simp [CheckScheduleAnomaly, h]

/-- A paused snapshot whose run interval also exceeds the maximum. -/
def pausedWeeklyTask : ScheduledTask :=
  { id := 1, name := compactionScheduleName, scheduleExpr := "@weekly",
    frequency := weeklyFrequency, status := ScheduleStatus.paused }

/-- C4 witness: the paused-and-too-long snapshot yields `SchedulePaused`,
never `ScheduleIntervalTooLong`. -/
theorem schedulePaused_precedence_witness :
    pausedWeeklyTask.status = ScheduleStatus.paused ∧
    maxScheduleInterval < pausedWeeklyTask.frequency ∧
    CheckScheduleAnomaly pausedWeeklyTask = some GoError.schedulePaused :=
  ⟨by decide, by decide, schedulePaused_precedence pausedWeeklyTask (by decide)⟩

/-- C5: for every non-paused snapshot, an implied run interval exceeding the
fixed one-day maximum yields `ScheduleIntervalTooLong` wrapping the
offending expression, and an interval below the maximum yields no anomaly. -/
theorem scheduleIntervalTooLong_detection (t : ScheduledTask)
    (h : t.status ≠ ScheduleStatus.paused) :
    (maxScheduleInterval < t.frequency →
      CheckScheduleAnomaly t =
        some (GoError.wrapped t.scheduleExpr GoError.scheduleIntervalTooLong)) ∧
    (t.frequency < maxScheduleInterval → CheckScheduleAnomaly t = none) := by
  constructor
  · intro hf
    simp [CheckScheduleAnomaly, h, hf]
  · intro hf
    simp [CheckScheduleAnomaly, h]
    omega

/-- A non-paused snapshot whose recurrence fires once, far in the future,
so its implied interval is enormous. -/
def farFutureTask : ScheduledTask :=
  { id := 1, name := compactionScheduleName,
    scheduleExpr := "0 59 23 24 12 ? 2099", frequency := 2400000000,
    status := ScheduleStatus.succeeded }

/-- The schedule as created on startup: hourly, pending. -/
def hourlyTask : ScheduledTask :=
  { id := 1, name := compactionScheduleName, scheduleExpr := defaultRecurrence,
    frequency := hourlyFrequency, status := ScheduleStatus.pending }

/-- C5 witness: the far-future snapshot yields the wrapped
`ScheduleIntervalTooLong` anomaly and the default hourly snapshot yields
none. -/
theorem scheduleIntervalTooLong_detection_witness :
    (farFutureTask.status ≠ ScheduleStatus.paused ∧
      maxScheduleInterval < farFutureTask.frequency ∧
      CheckScheduleAnomaly farFutureTask =
        some (GoError.wrapped "0 59 23 24 12 ? 2099"
          GoError.scheduleIntervalTooLong)) ∧
    (hourlyTask.status ≠ ScheduleStatus.paused ∧
      hourlyFrequency < maxScheduleInterval ∧
      CheckScheduleAnomaly hourlyTask = none) :=
  ⟨⟨by decide, by decide,
      (scheduleIntervalTooLong_detection farFutureTask (by decide)).1
        (by decide)⟩,
    ⟨by decide, by decide,
      (scheduleIntervalTooLong_detection hourlyTask (by decide)).2
        (by decide)⟩⟩

/-- C9: the too-long-interval threshold is strictly below seven days, so a
non-paused snapshot with recurrence `@weekly` (a seven-day interval) yields
the `ScheduleIntervalTooLong` anomaly. -/
theorem weekly_interval_too_long (t : ScheduledTask)
    (hexpr : t.scheduleExpr = "@weekly") (hfreq : t.frequency = weeklyFrequency)
    (hstatus : t.status ≠ ScheduleStatus.paused) :
    maxScheduleInterval < weeklyFrequency ∧
    CheckScheduleAnomaly t =
      some (GoError.wrapped "@weekly" GoError.scheduleIntervalTooLong) := by
  refine ⟨by decide, ?_⟩
  have hlt : maxScheduleInterval < t.frequency := by rw [hfreq]; decide
  simp [CheckScheduleAnomaly, hstatus, hlt, hexpr]

/-- A non-paused `@weekly` snapshot. -/
def weeklyTask : ScheduledTask :=
  { id := 1, name := compactionScheduleName, scheduleExpr := "@weekly",
    frequency := weeklyFrequency, status := ScheduleStatus.pending }

/-- C9 witness: the `@weekly` snapshot is flagged. -/
theorem weekly_interval_too_long_witness :
    maxScheduleInterval < weeklyFrequency ∧
    CheckScheduleAnomaly weeklyTask =
      some (GoError.wrapped "@weekly" GoError.scheduleIntervalTooLong) :=
  weekly_interval_too_long weeklyTask (by decide) (by decide) (by decide)

/-- One `EnsureScheduleExists` call from a store holding at most one
protected row leaves exactly one protected row and returns no error. -/
theorem scheduleCount_ensure (s : ScheduleStore) (i : Nat)
    (h : scheduleCount s ≤ 1) :
    scheduleCount (EnsureScheduleExists s i).1 = 1 ∧
    (EnsureScheduleExists s i).2 = none := by
  unfold EnsureScheduleExists
  by_cases ha : s.any isCompactionSchedule
  · constructor
    · rcases List.any_eq_true.mp ha with ⟨t, ht, hp⟩
      have hpos : 0 < scheduleCount s := List.countP_pos_iff.mpr ⟨t, ht, hp⟩
      simp only [ha, if_true]
      omega
    · simp [ha]
  · have hf : s.any isCompactionSchedule = false := by
      revert ha; cases s.any isCompactionSchedule <;> simp
    constructor
    · have h0 : scheduleCount s = 0 :=
        List.countP_eq_zero.mpr (List.any_eq_false.mp hf)
      simp only [hf, Bool.false_eq_true, if_false]
      unfold scheduleCount at *
      rw [List.countP_cons]
      simp [isCompactionSchedule, h0]
    · simp [hf]

/-- Further `EnsureScheduleExists` calls from a store holding exactly one
protected row keep exactly one and return no errors. -/
theorem ensureMany_preserves (s : ScheduleStore) (ids : List Nat)
    (h : scheduleCount s = 1) :
    scheduleCount (ensureMany s ids).1 = 1 ∧
    ∀ e ∈ (ensureMany s ids).2, e = none := by
  induction ids generalizing s with
  | nil => simpa [ensureMany] using h
  | cons i is ih =>
      have h1 := scheduleCount_ensure s i (by omega)
      have h2 := ih (EnsureScheduleExists s i).1 h1.1
      simp only [ensureMany]
      refine ⟨h2.1, ?_⟩
      intro e he
      rcases List.mem_cons.mp he with rfl | hmem
      exacts [h1.2, h2.2 e hmem]

/-- C1: from any store holding at most one protected row (in particular a
fresh cluster holding none), running `EnsureScheduleExists` any positive
number of times — each call one atomic step, so any concurrent execution is
such a sequence — leaves exactly one persisted row named
`sql-stats-compaction` and no call returns an error. -/
theorem ensureScheduleExists_idempotent (s : ScheduleStore) (i : Nat)
    (ids : List Nat) (h : scheduleCount s ≤ 1) :
    scheduleCount (ensureMany s (i :: ids)).1 = 1 ∧
    ∀ e ∈ (ensureMany s (i :: ids)).2, e = none := by
  have h1 := scheduleCount_ensure s i h
  have h2 := ensureMany_preserves (EnsureScheduleExists s i).1 ids h1.1
  simp only [ensureMany]
  refine ⟨h2.1, ?_⟩
  intro e he
  rcases List.mem_cons.mp he with rfl | hmem
  exacts [h1.2, h2.2 e hmem]

/-- C1 witness: three racing startups on a fresh cluster create exactly one
schedule row and no errors. -/
theorem ensureScheduleExists_idempotent_witness :
    scheduleCount ([] : ScheduleStore) ≤ 1 ∧
    scheduleCount (ensureMany ([] : ScheduleStore) [1, 2, 3]).1 = 1 ∧
    ∀ e ∈ (ensureMany ([] : ScheduleStore) [1, 2, 3]).2, e = none := by
  refine ⟨by decide, ?_, ?_⟩
  · exact (ensureScheduleExists_idempotent [] 1 [2, 3] (by decide)).1
  · exact (ensureScheduleExists_idempotent [] 1 [2, 3] (by decide)).2

/-- C2: a deletion attempt against any task bearing the protected name
returns `ScheduleUndroppable` with the store unchanged, while deleting any
non-protected task succeeds normally (the row is removed, no error). -/
theorem interceptDeletion_undroppable (s : ScheduleStore) (tid : Nat)
    (t : ScheduledTask) (h : findTask s tid = some t) :
    (t.name = compactionScheduleName →
      dropSchedule s tid = (s, some GoError.scheduleUndroppable)) ∧
    (t.name ≠ compactionScheduleName →
      dropSchedule s tid = (s.filter (fun u => !(u.id == tid)), none)) := by
  constructor
  · intro hn
    simp [dropSchedule, InterceptDeletion, h, isCompactionSchedule, hn]
  · intro hn
    simp [dropSchedule, InterceptDeletion, h, isCompactionSchedule, hn]

/-- A non-protected schedule row, for exercising the deletion path. -/
def otherRow : ScheduledTask :=
  { id := 2, name := "nightly-backup", scheduleExpr := "@daily",
    frequency := 24 * 60 * 60, status := ScheduleStatus.pending }

/-- A store holding the protected schedule and one ordinary schedule. -/
def demoStore : ScheduleStore := [hourlyTask, otherRow]

/-- C2 witness: dropping the protected schedule fails `ScheduleUndroppable`
with no state change; dropping the ordinary schedule removes it without
error. -/
theorem interceptDeletion_undroppable_witness :
    findTask demoStore 1 = some hourlyTask ∧
    hourlyTask.name = compactionScheduleName ∧
    dropSchedule demoStore 1 = (demoStore, some GoError.scheduleUndroppable) ∧
    findTask demoStore 2 = some otherRow ∧
    otherRow.name ≠ compactionScheduleName ∧
    dropSchedule demoStore 2 = ([hourlyTask], none) := by
  refine ⟨by decide, by decide, ?_, by decide, by decide, ?_⟩
  · exact (interceptDeletion_undroppable demoStore 1 hourlyTask (by decide)).1
      (by decide)
  · have hd := (interceptDeletion_undroppable demoStore 2 otherRow (by decide)).2
      (by decide)
    rw [hd]
    decide

/-- Sorting a table in deletion order preserves its row count. -/
theorem sortRows_length (tbl : List StatsRow) :
    (sortRows tbl).length = tbl.length :=
  (List.perm_insertionSort rowLE tbl).length_eq

/-- Compaction with ceiling zero empties the table. -/
theorem compactTable_zero (tbl : List StatsRow) : compactTable 0 tbl = [] := by
  unfold compactTable
  by_cases h : tbl.length ≤ 0
  · simp only [h, if_true]
    exact List.eq_nil_of_length_eq_zero (by omega)
  · simp only [h, if_false]
    rw [Nat.sub_zero, ← sortRows_length tbl, List.drop_length]

/-- Compaction of a table at or below the ceiling is the identity. -/
theorem compactTable_noop (c : Nat) (tbl : List StatsRow)
    (h : tbl.length ≤ c) : compactTable c tbl = tbl := by
  unfold compactTable
  simp [h]

/-- C6: `CompactionExecutor.Run` treats the ceiling as a strict row count —
ceiling 0 empties both tables, a table at or below the ceiling is left
unchanged, and the run reports success. -/
theorem compaction_ceiling_semantics (s : StatsState) :
    (CompactionExecutor.Run s).2 = none ∧
    (s.persistedRowsMax = 0 →
      (CompactionExecutor.Run s).1.stmtStats = [] ∧
      (CompactionExecutor.Run s).1.txnStats = []) ∧
    (s.stmtStats.length ≤ s.persistedRowsMax →
      (CompactionExecutor.Run s).1.stmtStats = s.stmtStats) ∧
    (s.txnStats.length ≤ s.persistedRowsMax →
      (CompactionExecutor.Run s).1.txnStats = s.txnStats) := by
  refine ⟨rfl, ?_, ?_, ?_⟩
  · intro h0
    simp only [CompactionExecutor.Run, h0]
    exact ⟨compactTable_zero _, compactTable_zero _⟩
  · intro hle
    simp only [CompactionExecutor.Run]
    exact compactTable_noop _ _ hle
  · intro hle
    simp only [CompactionExecutor.Run]
    exact compactTable_noop _ _ hle

/-- A state whose tables sit below the ceiling. -/
def belowCeilingState : StatsState :=
  { stmtStats := [{ fingerprintID := 1, aggregatedTs := 10 },
                  { fingerprintID := 2, aggregatedTs := 20 }],
    txnStats := [{ fingerprintID := 3, aggregatedTs := 10 }],
    persistedRowsMax := 5 }

/-- The same tables under a zero ceiling. -/
def zeroCeilingState : StatsState :=
  { stmtStats := [{ fingerprintID := 1, aggregatedTs := 10 },
                  { fingerprintID := 2, aggregatedTs := 20 }],
    txnStats := [{ fingerprintID := 3, aggregatedTs := 10 }],
    persistedRowsMax := 0 }

/-- C6 witness: ceiling 0 deletes every row; a ceiling above the row counts
leaves both tables untouched and the run succeeds. -/
theorem compaction_ceiling_semantics_witness :
    ((CompactionExecutor.Run zeroCeilingState).1.stmtStats = [] ∧
      (CompactionExecutor.Run zeroCeilingState).1.txnStats = []) ∧
    (CompactionExecutor.Run belowCeilingState).1.stmtStats =
      belowCeilingState.stmtStats ∧
    (CompactionExecutor.Run belowCeilingState).1.txnStats =
      belowCeilingState.txnStats ∧
    (CompactionExecutor.Run belowCeilingState).2 = none :=
  ⟨(compaction_ceiling_semantics zeroCeilingState).2.1 rfl,
    (compaction_ceiling_semantics belowCeilingState).2.2.1 (by decide),
    (compaction_ceiling_semantics belowCeilingState).2.2.2 (by decide),
    (compaction_ceiling_semantics belowCeilingState).1⟩

/-- A two-row statement table whose rows share one aggregation bucket, under
ceiling 1. -/
def tiedBucketState : StatsState :=
  { stmtStats := [{ fingerprintID := 1, aggregatedTs := 5 },
                  { fingerprintID := 2, aggregatedTs := 5 }],
    txnStats := [], persistedRowsMax := 1 }

/-- C3 counterexample: with two rows in the same aggregation bucket and
ceiling 1, a successful run keeps exactly 1 row, yet the deleted row is not
strictly older than the retained one — they share the bucket — so the
claim's strict-recency conjunct fails. -/
theorem compaction_retention_counterexample :
    tiedBucketState.persistedRowsMax < tiedBucketState.stmtStats.length ∧
    (CompactionExecutor.Run tiedBucketState).2 = none ∧
    ((CompactionExecutor.Run tiedBucketState).1.stmtStats).length =
      tiedBucketState.persistedRowsMax ∧
    ¬ (∀ d ∈ deletedRows tiedBucketState.persistedRowsMax
          tiedBucketState.stmtStats,
        ∀ r ∈ (CompactionExecutor.Run tiedBucketState).1.stmtStats,
          d.aggregatedTs < r.aggregatedTs) := by
  decide

/-- C3 (amended): with ceiling C below the row count R, a successful run
leaves exactly C rows on the statement table — the final segment of the
table in deletion order, hence the C most recent up to ties in the
aggregation bucket — R − C rows are deleted, and every deleted row is no
newer than any retained row in deletion order (strictly older except
possibly for rows sharing the retained rows' oldest bucket). -/
theorem compaction_retention_bound (s : StatsState)
    (h : s.persistedRowsMax < s.stmtStats.length) :
    (CompactionExecutor.Run s).2 = none ∧
    ((CompactionExecutor.Run s).1.stmtStats).length = s.persistedRowsMax ∧
    deletedRows s.persistedRowsMax s.stmtStats ++
      (CompactionExecutor.Run s).1.stmtStats = sortRows s.stmtStats ∧
    (deletedRows s.persistedRowsMax s.stmtStats).length =
      s.stmtStats.length - s.persistedRowsMax ∧
    ∀ d ∈ deletedRows s.persistedRowsMax s.stmtStats,
      ∀ r ∈ (CompactionExecutor.Run s).1.stmtStats, rowLE d r := by
  have hno : ¬ s.stmtStats.length ≤ s.persistedRowsMax := by omega
  have hrun : (CompactionExecutor.Run s).1.stmtStats =
      (sortRows s.stmtStats).drop
        (s.stmtStats.length - s.persistedRowsMax) := by
    simp [CompactionExecutor.Run, compactTable, hno]
  have hdel : deletedRows s.persistedRowsMax s.stmtStats =
      (sortRows s.stmtStats).take
        (s.stmtStats.length - s.persistedRowsMax) := by
    simp [deletedRows, hno]
  have hlen := sortRows_length s.stmtStats
  refine ⟨rfl, ?_, ?_, ?_, ?_⟩
  · rw [hrun, List.length_drop]
    omega
  · rw [hrun, hdel, List.take_append_drop]
  · rw [hdel, List.length_take]
    omega
  · intro d hd r hr
    have hsorted : List.Pairwise rowLE (sortRows s.stmtStats) :=
      List.sorted_insertionSort rowLE s.stmtStats
    rw [← List.take_append_drop (s.stmtStats.length - s.persistedRowsMax)
      (sortRows s.stmtStats)] at hsorted
    have h3 := (List.pairwise_append.mp hsorted).2.2
    rw [hdel] at hd
    rw [hrun] at hr
    exact h3 d hd r hr

/-- A three-row statement table in distinct buckets, under ceiling 2. -/
def threeRowState : StatsState :=
  { stmtStats := [{ fingerprintID := 1, aggregatedTs := 30 },
                  { fingerprintID := 2, aggregatedTs := 10 },
                  { fingerprintID := 3, aggregatedTs := 20 }],
    txnStats := [], persistedRowsMax := 2 }

/-- C3 (amended) witness: three rows in distinct buckets under ceiling 2
keep the two most recent and delete the oldest. -/
theorem compaction_retention_bound_witness :
    threeRowState.persistedRowsMax < threeRowState.stmtStats.length ∧
    ((CompactionExecutor.Run threeRowState).2 = none ∧
      ((CompactionExecutor.Run threeRowState).1.stmtStats).length =
        threeRowState.persistedRowsMax ∧
      deletedRows threeRowState.persistedRowsMax threeRowState.stmtStats ++
        (CompactionExecutor.Run threeRowState).1.stmtStats =
          sortRows threeRowState.stmtStats ∧
      (deletedRows threeRowState.persistedRowsMax
          threeRowState.stmtStats).length =
        threeRowState.stmtStats.length - threeRowState.persistedRowsMax ∧
      ∀ d ∈ deletedRows threeRowState.persistedRowsMax threeRowState.stmtStats,
        ∀ r ∈ (CompactionExecutor.Run threeRowState).1.stmtStats, rowLE d r) :=
  ⟨by decide, compaction_retention_bound threeRowState (by decide)⟩

/-- C7: editing the persisted schedule row's recurrence directly in storage
leaves the cluster setting untouched, yet `CheckScheduleAnomaly` on a
freshly reloaded snapshot still flags the too-long interval — the checker
inspects the effective persisted recurrence, not the configuration key. -/
theorem anomaly_checks_persisted_recurrence (s : ClusterState)
    (t : ScheduledTask) (expr : String) (freq : Nat)
    (h : loadCompactionSchedule s = some t)
    (hp : t.status ≠ ScheduleStatus.paused)
    (hf : maxScheduleInterval < freq) :
    (setScheduleExprDirect s expr freq).recurrenceSetting =
      s.recurrenceSetting ∧
    loadCompactionSchedule (setScheduleExprDirect s expr freq) =
      some { t with scheduleExpr := expr, frequency := freq } ∧
    CheckScheduleAnomaly { t with scheduleExpr := expr, frequency := freq } =
      some (GoError.wrapped expr GoError.scheduleIntervalTooLong) := by
  have hname : isCompactionSchedule t = true :=
    List.find?_some (by simpa [loadCompactionSchedule] using h)
  refine ⟨rfl, ?_, ?_⟩
  · unfold loadCompactionSchedule setScheduleExprDirect
    rw [List.find?_map]
    have hcomp : (isCompactionSchedule ∘ fun u =>
        if isCompactionSchedule u then
          { u with scheduleExpr := expr, frequency := freq }
        else u) = isCompactionSchedule := by
      funext u
      by_cases hu : u.name = compactionScheduleName
      · simp [Function.comp, isCompactionSchedule, hu]
      · simp [Function.comp, isCompactionSchedule, hu]
    rw [hcomp]
    unfold loadCompactionSchedule at h
    rw [h]
    simp [hname]
  · simp [CheckScheduleAnomaly, hp, hf]

/-- The cluster as initialized on startup: the persisted schedules and the
default recurrence setting. -/
def demoCluster : ClusterState :=
  { schedules := demoStore, recurrenceSetting := defaultRecurrence }

/-- C7 witness: after a direct `@weekly` edit of the persisted row, the
reloaded snapshot is flagged while the setting still reads `@hourly`. -/
theorem anomaly_checks_persisted_recurrence_witness :
    loadCompactionSchedule demoCluster = some hourlyTask ∧
    hourlyTask.status ≠ ScheduleStatus.paused ∧
    maxScheduleInterval < weeklyFrequency ∧
    (setScheduleExprDirect demoCluster "@weekly"
        weeklyFrequency).recurrenceSetting = demoCluster.recurrenceSetting ∧
    loadCompactionSchedule
        (setScheduleExprDirect demoCluster "@weekly" weeklyFrequency) =
      some { hourlyTask with
              scheduleExpr := "@weekly", frequency := weeklyFrequency } ∧
    CheckScheduleAnomaly { hourlyTask with
        scheduleExpr := "@weekly", frequency := weeklyFrequency } =
      some (GoError.wrapped "@weekly" GoError.scheduleIntervalTooLong) := by
  have hmain := anomaly_checks_persisted_recurrence demoCluster hourlyTask
    "@weekly" weeklyFrequency (by decide) (by decide) (by decide)
  exact ⟨by decide, by decide, by decide, hmain.1, hmain.2.1, hmain.2.2⟩

/-- C8 counterexample: the too-long anomaly error already matches
`ErrScheduleIntervalTooLong` under `errors.Is` with no `errors.Unwrap` step,
because `errors.Is` traverses the wrap chain — it does not match only after
one unwrap. -/
theorem anomaly_wrapping_counterexample :
    weeklyTask.status ≠ ScheduleStatus.paused ∧
    CheckScheduleAnomaly weeklyTask =
      some (GoError.wrapped "@weekly" GoError.scheduleIntervalTooLong) ∧
    errorsIs (GoError.wrapped "@weekly" GoError.scheduleIntervalTooLong)
      GoError.scheduleIntervalTooLong = true := by
  decide

/-- C8 (amended): the paused anomaly is the bare `ErrSchedulePaused`
sentinel (matching directly, nothing to unwrap), while the too-long anomaly
wraps `ErrScheduleIntervalTooLong` exactly one level deep: one
`errors.Unwrap` step exposes the sentinel, and `errors.Is` matches both
before and after the unwrap since it traverses wrapping. -/
theorem anomaly_wrapping_depth (t : ScheduledTask) :
    (t.status = ScheduleStatus.paused →
      CheckScheduleAnomaly t = some GoError.schedulePaused ∧
      errorsUnwrap GoError.schedulePaused = none ∧
      errorsIs GoError.schedulePaused GoError.schedulePaused = true) ∧
    (t.status ≠ ScheduleStatus.paused → maxScheduleInterval < t.frequency →
      CheckScheduleAnomaly t =
        some (GoError.wrapped t.scheduleExpr
          GoError.scheduleIntervalTooLong) ∧
      errorsUnwrap (GoError.wrapped t.scheduleExpr
          GoError.scheduleIntervalTooLong) =
        some GoError.scheduleIntervalTooLong ∧
      errorsIs (GoError.wrapped t.scheduleExpr
          GoError.scheduleIntervalTooLong)
        GoError.scheduleIntervalTooLong = true) := by
  constructor
  · intro hp
    exact ⟨by simp [CheckScheduleAnomaly, hp], rfl, by decide⟩
  · intro hp hf
    refine ⟨by simp [CheckScheduleAnomaly, hp, hf], rfl, ?_⟩
    simp [errorsIs]

/-- C8 (amended) witness: the paused branch at the paused snapshot and the
too-long branch at the far-future snapshot. -/
theorem anomaly_wrapping_depth_witness :
    (CheckScheduleAnomaly pausedWeeklyTask = some GoError.schedulePaused ∧
      errorsUnwrap GoError.schedulePaused = none ∧
      errorsIs GoError.schedulePaused GoError.schedulePaused = true) ∧
    (CheckScheduleAnomaly farFutureTask =
        some (GoError.wrapped "0 59 23 24 12 ? 2099"
          GoError.scheduleIntervalTooLong) ∧
      errorsUnwrap (GoError.wrapped "0 59 23 24 12 ? 2099"
          GoError.scheduleIntervalTooLong) =
        some GoError.scheduleIntervalTooLong ∧
      errorsIs (GoError.wrapped "0 59 23 24 12 ? 2099"
          GoError.scheduleIntervalTooLong)
        GoError.scheduleIntervalTooLong = true) := by
  exact ⟨(anomaly_wrapping_depth pausedWeeklyTask).1 (by decide),
    (anomaly_wrapping_depth farFutureTask).2 (by decide) (by decide)⟩
